import Mathlib

/-!
Shallow embedding of the reservation / user-management serializers of the
rent-backend repository (src/api/serializers.py, src/backend/settings.py).

Conventions of the embedding:
* Python `datetime.timedelta` values are whole seconds, modelled as an `Int`
  of seconds (`Timedelta`).  `timedelta(days=k)` is `Timedelta.ofDays k`,
  `total_seconds()` is `Timedelta.total_seconds`, the `.days` attribute is
  the floor of seconds / 86400 (Python normalises `days` with floor
  division), and comparison/addition act on the second counts exactly as
  Python compares and adds timedeltas.
* Dates (`reserved_from`, `reserved_until`) are days since 1970-01-01,
  which was a Thursday, i.e. ISO weekday 4; `isoweekday` is derived from
  that anchor.  Subtracting two dates yields a `Timedelta`, as in Python.
* Database lookups performed inside `validate` (the configured
  `max_rent_duration` for the reserver's priority and the object type, the
  `lenting_day` / `returning_day` settings, and the `available` value of
  the aggregate availability query) are inputs of the function, collected
  in `ValidationEnv`: the function under study consumes their results and
  the queries themselves live outside this file's sources.
* A serializer method that can raise `ValidationError` is a function into
  `Except String _`; `.error` carries the `detail` string of the raise.
-/

structure Timedelta where
  seconds : Int
deriving DecidableEq, Repr

def Timedelta.ofDays (k : Int) : Timedelta := ⟨k * 86400⟩

def Timedelta.total_seconds (t : Timedelta) : Int := t.seconds

def Timedelta.days (t : Timedelta) : Int := t.seconds.fdiv 86400

instance : Add Timedelta := ⟨fun a b => ⟨a.seconds + b.seconds⟩⟩

instance : LT Timedelta := ⟨fun a b => a.seconds < b.seconds⟩

instance (a b : Timedelta) : Decidable (a < b) :=
  inferInstanceAs (Decidable (a.seconds < b.seconds))

/-- `isoweekday` of a date given as days since 1970-01-01 (a Thursday,
ISO weekday 4): Monday = 1 .. Sunday = 7. -/
def isoweekday (d : Int) : Int := (d + 3).emod 7 + 1

/-- Subtraction of two dates, as Python's `date`/`datetime` subtraction:
a `timedelta` of whole days. -/
def dateSub (a b : Int) : Timedelta := ⟨(a - b) * 86400⟩

/-- The fields of the incoming reservation `data` dict that
`BulkReservationSerializer.validate` reads: `reserved_from`,
`reserved_until` (dates) and `count`. -/
structure ReservationData where
  reserved_from : Int
  reserved_until : Int
  count : Int
deriving DecidableEq, Repr

/-- Results of the database queries issued by
`BulkReservationSerializer.validate`:
`maxRentDuration` is `RentalObjectType.max_rent_duration(pk=objecttype.pk,
prio=reserver.prio).duration`, `lentingDay` and `returningDay` are
`int(Settings.objects.get(type=...).value)`, and `available` is
`RentalObjectType.available(...)['available']` for the requested range. -/
structure ValidationEnv where
  maxRentDuration : Timedelta
  lentingDay : Int
  returningDay : Int
  available : Int
deriving DecidableEq, Repr

/-- `BulkReservationSerializer.validate` (src/api/serializers.py, lines
187-203): five sequential checks, each raising `ValidationError` with its
`detail` string, and the data returned unchanged when all pass. -/
def BulkReservationSerializer.validate (env : ValidationEnv)
    (data : ReservationData) : Except String ReservationData :=
  if env.maxRentDuration + Timedelta.ofDays 7 <
      dateSub data.reserved_until data.reserved_from then
    .error "the rent duration exceeds max_rent_duration."
  else if isoweekday data.reserved_from ≠ env.lentingDay then
    .error "this day is not a lenting day therefore a reservation can not start here"
  else if isoweekday data.reserved_until ≠ env.returningDay then
    .error "this day is not a returning day therefore a reservation can not end here"
  else if data.reserved_from ≥ data.reserved_until then
    .error "reserved_from must be before reserved_until"
  else if data.count > env.available then
    .error "There are not enough objects of this type to fullfill your reservation"
  else
    .ok data

/-- Whether a validation outcome is a raised `ValidationError`. -/
def validationFails (r : Except String ReservationData) : Prop :=
  ∃ e, r = Except.error e

instance (r : Except String ReservationData) : Decidable (validationFails r) :=
  match r with
  | .error e => .isTrue ⟨e, rfl⟩
  | .ok _ => .isFalse (by rintro ⟨e, h⟩; exact Except.noConfusion h)

/-- The ordered check list of `BulkReservationSerializer.validate`, each a
failure condition paired with the `detail` of the `ValidationError` it
raises: duration limit, lending day, returning day, date ordering,
availability. -/
def reservationChecks (env : ValidationEnv) :
    List ((ReservationData → Bool) × String) :=
  [ (fun d => decide (env.maxRentDuration + Timedelta.ofDays 7 <
        dateSub d.reserved_until d.reserved_from),
     "the rent duration exceeds max_rent_duration."),
    (fun d => decide (isoweekday d.reserved_from ≠ env.lentingDay),
     "this day is not a lenting day therefore a reservation can not start here"),
    (fun d => decide (isoweekday d.reserved_until ≠ env.returningDay),
     "this day is not a returning day therefore a reservation can not end here"),
    (fun d => decide (d.reserved_from ≥ d.reserved_until),
     "reserved_from must be before reserved_until"),
    (fun d => decide (d.count > env.available),
     "There are not enough objects of this type to fullfill your reservation") ]

/-- Sequential evaluation of a list of failure checks: the error of the
first failing check, or the data unchanged when every check passes. -/
def firstFailing (data : ReservationData) :
    List ((ReservationData → Bool) × String) → Except String ReservationData
  | [] => .ok data
  | (c, msg) :: rest =>
      if c data then .error msg else firstFailing data rest

/-!
## Email validation (`UserCreationSerializer.validate_email`)

The serializer compiles the regex stored in the `email_validation_regex`
setting and rejects the email unless `regex.fullmatch(email)` succeeds
(for `re.fullmatch`, `group(0)` is always the entire string, so the
`result.group(0) == email` conjunct is equivalent to the match test).
The default value of the setting, from src/backend/settings.py line 207,
is the pattern `\S+@([a-zA-Z0-9]+\.)?rwth-aachen\.de`.

`emailFullmatch` below implements `re.fullmatch` of exactly that pattern
over a list of characters: the string must decompose as a nonempty run of
non-whitespace characters, an `@`, and a tail that is `rwth-aachen.de`
optionally preceded by one nonempty ASCII-alphanumeric label and a dot.
Full match of an alternation-free pattern is the existence of such a
decomposition, which the scanner explores at every `@`.  Python's `\s`
class is modelled by its ASCII members (space, tab, newline, carriage
return, vertical tab, form feed).
-/

def isSpacePy (c : Char) : Bool :=
  c == ' ' || c == '\t' || c == '\n' || c == '\r' || c == '\x0b' || c == '\x0c'

def isAlnumAscii (c : Char) : Bool :=
  ('a' ≤ c && c ≤ 'z') || ('A' ≤ c && c ≤ 'Z') || ('0' ≤ c && c ≤ '9')

/-- The literal tail `rwth-aachen.de` of the default pattern. -/
def domainChars : List Char := "rwth-aachen.de".data

/-- After the leading alphanumeric character of the optional label
`[a-zA-Z0-9]+\.`: continue the label or close it with `.` followed by the
literal domain. -/
def labelRest : List Char → Bool
  | [] => false
  | c :: rest =>
      if c = '.' then decide (rest = domainChars)
      else isAlnumAscii c && labelRest rest

/-- The optional group plus domain: `([a-zA-Z0-9]+\.)?rwth-aachen\.de`. -/
def tailMatch (l : List Char) : Bool :=
  decide (l = domainChars) ||
    (match l with
     | [] => false
     | c :: rest => isAlnumAscii c && labelRest rest)

/-- Scanner for the part after the first character: at each position the
current character may serve as the `@` separator (when the rest matches
the domain tail) or extend the `\S+` run. -/
def emailScan : List Char → Bool
  | [] => false
  | c :: rest =>
      (decide (c = '@') && tailMatch rest) || (!isSpacePy c && emailScan rest)

/-- `re.fullmatch` of the default `email_validation_regex` pattern
`\S+@([a-zA-Z0-9]+\.)?rwth-aachen\.de` against a string. -/
def emailFullmatch (email : String) : Bool :=
  match email.data with
  | [] => false
  | c :: rest => !isSpacePy c && emailScan rest

/-- `UserCreationSerializer.validate_email` (src/api/serializers.py,
lines 73-84).  `fullmatch` is the compiled regex of the
`email_validation_regex` setting applied by `regex.fullmatch`;
`emailUseCount` is `User.objects.all().filter(email=email).count()`. -/
def UserCreationSerializer.validate_email (fullmatch : String → Bool)
    (emailUseCount : Nat) (email : String) : Except String String :=
  if !fullmatch email then
    .error "Email ist im falsche Format"
  else if emailUseCount > 0 then
    .error "Email bereits in Benutzung"
  else
    .ok email

/-!
## User creation (`UserCreationSerializer.create`)

The method is decorated with `@transaction.atomic`: every database write
it performs is rolled back when an exception escapes it.  The database is
modelled as the lists of user and profile rows; `create_user` appends a
user row, a valid profile append a profile row.  Profile validation
(`ProfileSerializer.is_valid`, backed by model constraints in
base/models.py, which is outside the sources here) is abstracted as a
predicate `profileValid` on the supplied profile data, and the profile
payload itself is opaque.
-/

/-- Opaque payload of the nested `profile` dict of the registration
request; its internal structure is irrelevant to the claims. -/
structure ProfileData where
  payload : String
deriving DecidableEq, Repr

/-- The `validated_data` dict reaching `UserCreationSerializer.create`.
`is_active` is carried to express that whatever value arrives is
overwritten; `groups` is deleted by the method when present; `profile`
is popped (a missing key raises `KeyError`). -/
structure UserCreationData where
  username : String
  password : String
  email : String
  first_name : String
  last_name : String
  is_active : Bool
  groups : Option (List Nat)
  profile : Option ProfileData
deriving DecidableEq, Repr

/-- A persisted `auth.User` row (the fields the claims observe). -/
structure UserRecord where
  username : String
  email : String
  is_active : Bool
deriving DecidableEq, Repr

/-- A persisted `Profile` row: the owning user plus the opaque payload. -/
structure ProfileRecord where
  user : String
  data : ProfileData
deriving DecidableEq, Repr

/-- The database state touched by user registration. -/
structure DBState where
  users : List UserRecord
  profiles : List ProfileRecord
deriving DecidableEq, Repr

/-- The body of `UserCreationSerializer.create` without the transaction
wrapper: each write is visible in the returned state even when an
exception (`.error`) follows it, which is what `@transaction.atomic` must
undo. -/
def createUserBody (profileValid : ProfileData → Bool)
    (vd : UserCreationData) (db : DBState) :
    DBState × Except String UserRecord :=
  let vd := { vd with is_active := false }
  let vd := { vd with groups := none }
  match vd.profile with
  | none => (db, .error "KeyError: profile")
  | some pd =>
      let user : UserRecord :=
        { username := vd.username, email := vd.email, is_active := vd.is_active }
      let db1 : DBState := { db with users := db.users ++ [user] }
      if profileValid pd then
        ({ db1 with profiles := db1.profiles ++ [⟨user.username, pd⟩] }, .ok user)
      else
        (db1, .error "ValidationError: profile")

/-- Django's `transaction.atomic` as a state transformer: when the body
ends in an exception, the database is rolled back to the state at entry
and the exception propagates. -/
def transactionAtomic {α : Type}
    (body : DBState → DBState × Except String α) (db : DBState) :
    DBState × Except String α :=
  match body db with
  | (db1, .ok a) => (db1, .ok a)
  | (_, .error e) => (db, .error e)

/-- `UserCreationSerializer.create` (src/api/serializers.py, lines
86-100): the body above run under `@transaction.atomic`. -/
def UserCreationSerializer.create (profileValid : ProfileData → Bool)
    (vd : UserCreationData) (db : DBState) :
    DBState × Except String UserRecord :=
  transactionAtomic (createUserBody profileValid vd) db

/-!
## Rental serialization (`RentalSerializer.__init__`)

`fields = '__all__'` declares every model field; the constructor pops
`return_processor` and `lender` from the field dict whenever the request
context is missing or the requesting user is not staff.  The `Rental`
model lives in base/models.py, outside the sources here; modelled from
the spec: a `Rental` is "the realized handout/return of specific objects
against a reservation", carrying the staff-only `return_processor` and
`lender` columns the constructor names, with the remaining columns kept
abstract as integer-valued attributes.
-/

inductive RentalField
  | reservation
  | rented_object
  | handed_out_on
  | received_back_on
  | return_processor
  | lender
deriving DecidableEq, Repr

/-- The declared field list of `RentalSerializer` (`fields = '__all__'`). -/
def allRentalFields : List RentalField :=
  [.reservation, .rented_object, .handed_out_on, .received_back_on,
   .return_processor, .lender]

/-- A `Rental` row, one value per serializer field. -/
structure Rental where
  reservation : Int
  rented_object : Int
  handed_out_on : Int
  received_back_on : Int
  return_processor : Int
  lender : Int
deriving DecidableEq, Repr

def Rental.getField (r : Rental) : RentalField → Int
  | .reservation => r.reservation
  | .rented_object => r.rented_object
  | .handed_out_on => r.handed_out_on
  | .received_back_on => r.received_back_on
  | .return_processor => r.return_processor
  | .lender => r.lender

/-- The requesting user of the serializer context, when a request is
present. -/
structure Requester where
  is_staff : Bool
deriving DecidableEq, Repr

/-- The field dict after `RentalSerializer.__init__` (src/api/serializers.py,
lines 220-229): `return_processor` and `lender` are popped unless the
request is present and its user is staff. -/
def RentalSerializer.activeFields (request : Option Requester) :
    List RentalField :=
  if request = none ∨ ¬(request.map Requester.is_staff).getD false then
    (allRentalFields.erase .return_processor).erase .lender
  else
    allRentalFields

/-- Serialized representation of a rental: each remaining field paired
with its value on the instance. -/
def RentalSerializer.serialize (request : Option Requester) (r : Rental) :
    List (RentalField × Int) :=
  (RentalSerializer.activeFields request).map (fun f => (f, r.getField f))

/-!
## `MaxRentDurationSerializer`

`create` and `update` replace the validated `duration` by
`timedelta(days=duration.total_seconds())` before persisting (for a
whole-second timedelta, Python's float `total_seconds()` is the exact
integer second count), and the read-only `duration_in_days` field reports
`int(obj.duration.days)` (`int` of an `int` is the identity).
-/

/-- A persisted `MaxRentDuration` row (the field the claims observe). -/
structure MaxRentDuration where
  duration : Timedelta
deriving DecidableEq, Repr

/-- `MaxRentDurationSerializer.create` (src/api/serializers.py, lines
36-39): `validated_data['duration'] = timedelta(days=
validated_data['duration'].total_seconds())`, then the default create
persists the row. -/
def MaxRentDurationSerializer.create (vdDuration : Timedelta) :
    MaxRentDuration :=
  { duration := Timedelta.ofDays vdDuration.total_seconds }

/-- `MaxRentDurationSerializer.update` (src/api/serializers.py, lines
41-44): same transformation as `create`, overwriting the instance. -/
def MaxRentDurationSerializer.update (vdDuration : Timedelta) :
    MaxRentDuration :=
  { duration := Timedelta.ofDays vdDuration.total_seconds }

/-- `MaxRentDurationSerializer.get_duration_in_days` (src/api/serializers.py,
lines 30-34): `int(obj.duration.days)`. -/
def MaxRentDurationSerializer.get_duration_in_days (obj : MaxRentDuration) :
    Int :=
  obj.duration.days

/-!
## Claims
-/

/-- C1, as stated, is false: the duration check of
`BulkReservationSerializer.validate` grants a 7-day grace on top of the
configured maximum.  With a configured `max_rent_duration` of 7 days,
lending and returning day 4 (Thursday) and 5 objects available, a
Thursday-to-Thursday reservation spanning 14 days exceeds the configured
maximum, yet validation accepts it. -/
theorem C1_counterexample :
    Timedelta.ofDays 7 < dateSub 14 0 ∧
    BulkReservationSerializer.validate ⟨Timedelta.ofDays 7, 4, 4, 5⟩ ⟨0, 14, 1⟩ =
      .ok ⟨0, 14, 1⟩ :=
  ⟨by decide, rfl⟩

/-- C1 (amended): validation raises a `ValidationError` whenever the span
`reserved_until - reserved_from` exceeds the configured max rent duration
for the reserver's priority and object type by more than 7 days, i.e.
exceeds `max_rent_duration + timedelta(days=7)`. -/
theorem C1_max_duration (env : ValidationEnv) (data : ReservationData)
    (h : env.maxRentDuration + Timedelta.ofDays 7 <
      dateSub data.reserved_until data.reserved_from) :
    validationFails (BulkReservationSerializer.validate env data) := by
  unfold BulkReservationSerializer.validate
  rw [if_pos h]
  exact ⟨_, rfl⟩

theorem C1_max_duration_witness :
    validationFails
      (BulkReservationSerializer.validate ⟨Timedelta.ofDays 7, 4, 4, 5⟩ ⟨0, 15, 1⟩) :=
  C1_max_duration _ _ (by decide)

/-- C2: if the requested `count` exceeds the `available` value of the
aggregate availability query, validation raises a `ValidationError`; in
particular a reservation accepted by `validate` never requests more than
the available count. -/
theorem C2_availability (env : ValidationEnv) (data : ReservationData) :
    (data.count > env.available →
      validationFails (BulkReservationSerializer.validate env data)) ∧
    (∀ d', BulkReservationSerializer.validate env data = .ok d' →
      data.count ≤ env.available) := by
  unfold BulkReservationSerializer.validate
  constructor
  · intro hcnt
    repeat' split
    all_goals exact ⟨_, rfl⟩
  · intro d' h
    repeat' split at h
    all_goals simp_all

theorem C2_availability_witness :
    validationFails
      (BulkReservationSerializer.validate ⟨Timedelta.ofDays 7, 4, 4, 0⟩ ⟨0, 7, 1⟩) ∧
    (1 : Int) ≤ 5 :=
  ⟨(C2_availability ⟨Timedelta.ofDays 7, 4, 4, 0⟩ ⟨0, 7, 1⟩).1 (by decide),
   (C2_availability ⟨Timedelta.ofDays 7, 4, 4, 5⟩ ⟨0, 7, 1⟩).2 ⟨0, 7, 1⟩ rfl⟩

/-- C3: validation raises a `ValidationError` unless the ISO weekday of
`reserved_from` equals the integer value of the `lenting_day` setting and
the ISO weekday of `reserved_until` equals the integer value of the
`returning_day` setting. -/
theorem C3_weekdays (env : ValidationEnv) (data : ReservationData)
    (h : isoweekday data.reserved_from ≠ env.lentingDay ∨
         isoweekday data.reserved_until ≠ env.returningDay) :
    validationFails (BulkReservationSerializer.validate env data) := by
  unfold BulkReservationSerializer.validate
  repeat' split
  all_goals first
    | exact ⟨_, rfl⟩
    | tauto

theorem C3_weekdays_witness :
    validationFails
      (BulkReservationSerializer.validate ⟨Timedelta.ofDays 7, 4, 4, 5⟩ ⟨1, 7, 1⟩) :=
  C3_weekdays _ _ (by decide)

/-- C6: an accepted reservation has `reserved_from` strictly before
`reserved_until`, and any input with `reserved_from ≥ reserved_until`
raises a `ValidationError`. -/
theorem C6_date_ordering (env : ValidationEnv) (data : ReservationData) :
    (data.reserved_from ≥ data.reserved_until →
      validationFails (BulkReservationSerializer.validate env data)) ∧
    (∀ d', BulkReservationSerializer.validate env data = .ok d' →
      data.reserved_from < data.reserved_until) := by
  unfold BulkReservationSerializer.validate
  constructor
  · intro hge
    repeat' split
    all_goals exact ⟨_, rfl⟩
  · intro d' h
    repeat' split at h
    all_goals simp_all

/-- C5: `BulkReservationSerializer.validate` is the sequential evaluation
of the ordered check list — duration limit, lending day, returning day,
date ordering, availability — raising the error of the first failing
check, and returning the validated data unchanged when every check
passes. -/
theorem C5_sequential_checks (env : ValidationEnv) (data : ReservationData) :
    BulkReservationSerializer.validate env data =
      firstFailing data (reservationChecks env) ∧
    ((∀ p ∈ reservationChecks env, p.1 data = false) →
      BulkReservationSerializer.validate env data = .ok data) := by
  constructor
  · simp only [BulkReservationSerializer.validate, reservationChecks,
      firstFailing, decide_eq_true_eq, ge_iff_le, gt_iff_lt]
  · intro hall
    simp only [reservationChecks, List.forall_mem_cons, List.not_mem_nil,
      false_implies, implies_true, and_true, decide_eq_false_iff_not] at hall
    obtain ⟨h1, h2, h3, h4, h5⟩ := hall
    unfold BulkReservationSerializer.validate
    rw [if_neg h1, if_neg h2, if_neg h3, if_neg h4, if_neg h5]

theorem C5_sequential_checks_witness :
    BulkReservationSerializer.validate ⟨Timedelta.ofDays 7, 4, 4, 5⟩ ⟨0, 7, 1⟩ =
      firstFailing ⟨0, 7, 1⟩ (reservationChecks ⟨Timedelta.ofDays 7, 4, 4, 5⟩) ∧
    BulkReservationSerializer.validate ⟨Timedelta.ofDays 7, 4, 4, 5⟩ ⟨0, 7, 1⟩ =
      .ok ⟨0, 7, 1⟩ :=
  ⟨(C5_sequential_checks ⟨Timedelta.ofDays 7, 4, 4, 5⟩ ⟨0, 7, 1⟩).1,
   (C5_sequential_checks ⟨Timedelta.ofDays 7, 4, 4, 5⟩ ⟨0, 7, 1⟩).2
     (by decide)⟩

theorem C6_date_ordering_witness :
    validationFails
      (BulkReservationSerializer.validate ⟨Timedelta.ofDays 7, 4, 4, 5⟩ ⟨7, 0, 1⟩) ∧
    (0 : Int) < 7 :=
  ⟨(C6_date_ordering ⟨Timedelta.ofDays 7, 4, 4, 5⟩ ⟨7, 0, 1⟩).1 (by decide),
   (C6_date_ordering ⟨Timedelta.ofDays 7, 4, 4, 5⟩ ⟨0, 7, 1⟩).2 ⟨0, 7, 1⟩ rfl⟩

/-- C7: `UserCreationSerializer.create` persists the new user with
`is_active = false` regardless of the incoming value, and when the
supplied profile data fails validation (or the profile is missing), the
`@transaction.atomic` wrapper rolls the whole creation back: the database
is exactly as before, so no user record persists. -/
theorem C7_atomic_disabled_creation (profileValid : ProfileData → Bool)
    (vd : UserCreationData) (db : DBState) :
    (∀ db1 u, UserCreationSerializer.create profileValid vd db = (db1, .ok u) →
      u.is_active = false ∧ db1.users = db.users ++ [u]) ∧
    (∀ db1 e, UserCreationSerializer.create profileValid vd db = (db1, .error e) →
      db1 = db) := by
  constructor
  · intro db1 u h
    simp only [UserCreationSerializer.create, transactionAtomic,
      createUserBody] at h
    cases hp : vd.profile with
    | none => simp [hp] at h
    | some pd =>
        simp only [hp] at h
        by_cases hv : profileValid pd
        · simp only [hv, if_true] at h
          obtain ⟨h1, h2⟩ := Prod.mk.injEq .. ▸ h
          obtain rfl := (Except.ok.injEq ..).mp h2
          simp [← h1]
        · simp [hv] at h
  · intro db1 e h
    simp only [UserCreationSerializer.create, transactionAtomic,
      createUserBody] at h
    cases hp : vd.profile with
    | none =>
        simp only [hp] at h
        exact ((Prod.mk.injEq ..).mp h).1.symm
    | some pd =>
        simp only [hp] at h
        by_cases hv : profileValid pd
        · simp [hv] at h
        · simp only [hv, if_false] at h
          exact ((Prod.mk.injEq ..).mp h).1.symm

theorem C7_atomic_disabled_creation_witness :
    ({ username := "alice", email := "a@rwth-aachen.de", is_active := false } :
        UserRecord).is_active = false ∧
    (DBState.mk [] []).users ++
        [{ username := "alice", email := "a@rwth-aachen.de", is_active := false }] =
      (DBState.mk
        [{ username := "alice", email := "a@rwth-aachen.de", is_active := false }]
        [⟨"alice", ⟨"p"⟩⟩]).users ∧
    DBState.mk [] [] = DBState.mk [] [] := by
  refine ⟨?_, ?_, ?_⟩
  · exact ((C7_atomic_disabled_creation (fun _ => true)
      ⟨"alice", "pw", "a@rwth-aachen.de", "A", "L", true, some [1], some ⟨"p"⟩⟩
      ⟨[], []⟩).1 _ _ rfl).1
  · exact (((C7_atomic_disabled_creation (fun _ => true)
      ⟨"alice", "pw", "a@rwth-aachen.de", "A", "L", true, some [1], some ⟨"p"⟩⟩
      ⟨[], []⟩).1 _ _ rfl).2).symm
  · exact (C7_atomic_disabled_creation (fun _ => false)
      ⟨"alice", "pw", "a@rwth-aachen.de", "A", "L", true, some [1], some ⟨"p"⟩⟩
      ⟨[], []⟩).2 _ "ValidationError: profile" rfl

/-- C8: when the request context is absent or the requesting user is not
staff, `RentalSerializer` drops `return_processor` and `lender` from its
field dict, and two rentals that agree on every other field serialize to
identical output. -/
theorem C8_staff_field_hiding (request : Option Requester) (r1 r2 : Rental)
    (hreq : request = none ∨ ∃ u, request = some u ∧ u.is_staff = false)
    (hagree : ∀ f : RentalField, f ≠ .return_processor → f ≠ .lender →
      r1.getField f = r2.getField f) :
    RentalField.return_processor ∉ RentalSerializer.activeFields request ∧
    RentalField.lender ∉ RentalSerializer.activeFields request ∧
    RentalSerializer.serialize request r1 = RentalSerializer.serialize request r2 := by
  have hfields : RentalSerializer.activeFields request =
      [.reservation, .rented_object, .handed_out_on, .received_back_on] := by
    rcases hreq with h | ⟨u, hu, hs⟩
    · rw [h]; rfl
    · rw [hu]
      unfold RentalSerializer.activeFields
      rw [if_pos]
      · rfl
      · right
        simp [hs]
  refine ⟨?_, ?_, ?_⟩
  · rw [hfields]; decide
  · rw [hfields]; decide
  · have h1 := hagree .reservation (by decide) (by decide)
    have h2 := hagree .rented_object (by decide) (by decide)
    have h3 := hagree .handed_out_on (by decide) (by decide)
    have h4 := hagree .received_back_on (by decide) (by decide)
    simp [RentalSerializer.serialize, hfields, h1, h2, h3, h4]

theorem C8_staff_field_hiding_witness :
    RentalField.return_processor ∉ RentalSerializer.activeFields none ∧
    RentalField.lender ∉ RentalSerializer.activeFields none ∧
    RentalSerializer.serialize none ⟨1, 2, 3, 4, 55, 66⟩ =
      RentalSerializer.serialize none ⟨1, 2, 3, 4, 77, 88⟩ :=
  C8_staff_field_hiding none ⟨1, 2, 3, 4, 55, 66⟩ ⟨1, 2, 3, 4, 77, 88⟩
    (Or.inl rfl)
    (by intro f h1 h2; cases f <;> simp_all [Rental.getField])

/-- C9: `MaxRentDurationSerializer.create` and `.update` persist
`timedelta(days=duration.total_seconds())` instead of the input duration:
an input of `k` days is stored as `k * 86400` days, and the derived
read-only `duration_in_days` field reports `int(duration.days)` of the
stored value, i.e. `k * 86400` for that input. -/
theorem C9_duration_scaling (k : Int) (obj : MaxRentDuration) :
    MaxRentDurationSerializer.create (Timedelta.ofDays k) =
      { duration := Timedelta.ofDays (k * 86400) } ∧
    MaxRentDurationSerializer.update (Timedelta.ofDays k) =
      { duration := Timedelta.ofDays (k * 86400) } ∧
    MaxRentDurationSerializer.get_duration_in_days
      (MaxRentDurationSerializer.create (Timedelta.ofDays k)) = k * 86400 ∧
    MaxRentDurationSerializer.get_duration_in_days obj = obj.duration.days := by
  refine ⟨rfl, rfl, ?_, rfl⟩
  show (((k : Int) * 86400) * 86400).fdiv 86400 = k * 86400
  rw [Int.mul_fdiv_cancel _ (by norm_num)]

theorem C9_duration_scaling_witness :
    MaxRentDurationSerializer.create (Timedelta.ofDays 3) =
      { duration := Timedelta.ofDays (3 * 86400) } ∧
    MaxRentDurationSerializer.update (Timedelta.ofDays 3) =
      { duration := Timedelta.ofDays (3 * 86400) } ∧
    MaxRentDurationSerializer.get_duration_in_days
      (MaxRentDurationSerializer.create (Timedelta.ofDays 3)) = 3 * 86400 ∧
    MaxRentDurationSerializer.get_duration_in_days ⟨Timedelta.ofDays 3⟩ =
      (Timedelta.ofDays 3).days :=
  C9_duration_scaling 3 ⟨Timedelta.ofDays 3⟩

/-- Every character list accepted by `labelRest` ends in the literal
domain tail. -/
theorem labelRest_suffix (l : List Char) (h : labelRest l = true) :
    ∃ p, l = p ++ domainChars := by
  induction l with
  | nil => simp [labelRest] at h
  | cons c rest ih =>
      unfold labelRest at h
      by_cases hc : c = '.'
      · rw [if_pos hc] at h
        have hr : rest = domainChars := of_decide_eq_true h
        exact ⟨[c], by rw [hr]; rfl⟩
      · rw [if_neg hc] at h
        simp only [Bool.and_eq_true] at h
        obtain ⟨p, hp⟩ := ih h.2
        exact ⟨c :: p, by rw [hp]; rfl⟩

/-- Every character list accepted by `tailMatch` ends in the literal
domain tail. -/
theorem tailMatch_suffix (l : List Char) (h : tailMatch l = true) :
    ∃ p, l = p ++ domainChars := by
  unfold tailMatch at h
  simp only [Bool.or_eq_true, decide_eq_true_eq] at h
  rcases h with h | h
  · exact ⟨[], by rw [h]; rfl⟩
  · cases l with
    | nil => simp at h
    | cons c rest =>
        simp only [Bool.and_eq_true] at h
        obtain ⟨p, hp⟩ := labelRest_suffix rest h.2
        exact ⟨c :: p, by rw [hp]; rfl⟩

/-- Every character list accepted by `emailScan` ends in the literal
domain tail. -/
theorem emailScan_suffix (l : List Char) (h : emailScan l = true) :
    ∃ p, l = p ++ domainChars := by
  induction l with
  | nil => simp [emailScan] at h
  | cons c rest ih =>
      unfold emailScan at h
      simp only [Bool.or_eq_true, Bool.and_eq_true, decide_eq_true_eq] at h
      rcases h with ⟨hc, ht⟩ | ⟨hs, hrest⟩
      · obtain ⟨p, hp⟩ := tailMatch_suffix rest ht
        exact ⟨c :: p, by rw [hp]; rfl⟩
      · obtain ⟨p, hp⟩ := ih hrest
        exact ⟨c :: p, by rw [hp]; rfl⟩

/-- Every string fully matched by the default `email_validation_regex`
pattern ends in `rwth-aachen.de`. -/
theorem emailFullmatch_suffix (s : String) (h : emailFullmatch s = true) :
    ∃ p, s.data = p ++ domainChars := by
  unfold emailFullmatch at h
  cases hd : s.data with
  | nil => rw [hd] at h; simp at h
  | cons c rest =>
      rw [hd] at h
      simp only [Bool.and_eq_true] at h
      obtain ⟨p, hp⟩ := emailScan_suffix rest h.2
      exact ⟨c :: p, by simp [hd, hp]⟩

/-- C4: `UserCreationSerializer.validate_email` rejects every email the
configured regex does not fully match, and under the default
`email_validation_regex` of settings.py every accepted email lies in the
`rwth-aachen.de` domain: its characters end in `rwth-aachen.de`. -/
theorem C4_email_validation :
    (∀ (fullmatch : String → Bool) (emailUseCount : Nat) (email : String),
      fullmatch email = false →
      UserCreationSerializer.validate_email fullmatch emailUseCount email =
        .error "Email ist im falsche Format") ∧
    (∀ (emailUseCount : Nat) (email v : String),
      UserCreationSerializer.validate_email emailFullmatch emailUseCount email =
        .ok v →
      ∃ p, email.data = p ++ domainChars) := by
  constructor
  · intro fm cnt email hfm
    unfold UserCreationSerializer.validate_email
    rw [hfm]
    rfl
  · intro cnt email v h
    by_cases hm : emailFullmatch email = true
    · exact emailFullmatch_suffix email hm
    · unfold UserCreationSerializer.validate_email at h
      rw [Bool.not_eq_true] at hm
      rw [hm] at h
      simp at h

theorem C4_email_validation_witness :
    UserCreationSerializer.validate_email (fun _ => false) 0 "user@example.com" =
      .error "Email ist im falsche Format" ∧
    ∃ p, "me@rwth-aachen.de".data = p ++ domainChars :=
  ⟨C4_email_validation.1 (fun _ => false) 0 "user@example.com" rfl,
   C4_email_validation.2 0 "me@rwth-aachen.de" "me@rwth-aachen.de" rfl⟩
